import Mathlib

/-!
Shallow embedding of `utoolbox/io/dataset_xr/format.py`: the `Format`
capability unit, the `BaseReaderWriter` session lifecycle protocol
(`__init__`, `__enter__`, `__exit__`, `close`, `_close`, `_assert_closed`,
`Reader.__iter__`) and the `FormatManager` registry (`add_format`,
`search_read_format`, `search_write_format`, `get_format_names`).

Python exceptions are modelled as explicit error values; stateful methods
become pure functions from session (or registry) state to an optional error
paired with the successor state.  The abstract format-specific hooks
(`open`, `_close`) are modelled as `Except Err Unit` parameters; a ghost
counter on the session state counts how many times the `_close` cleanup
hook has been invoked, which is the observable the lifecycle claims speak
about.
-/

namespace UtoolboxIO

/-- A `Request` is an opaque immutable handle identifying a dataset
location; the code never inspects it, so it is modelled as `Nat`. -/
abbrev Request := Nat

/-- Errors raised by the lifecycle/dispatch layer.  `useAfterClose` is the
`RuntimeError("... is already closed")` the source's `_assert_closed`
formats (the spec's `UseAfterCloseError`); `attributeError a` is Python's
`AttributeError` for a missing attribute `a`; `duplicateInstance` and
`duplicateName` are the two `ValueError`s of `FormatManager.add_format`
(the spec's `DuplicateError`); `openFailed e` tags a failure of the
format-specific `open` hook. -/
inductive Err where
  | useAfterClose : Err
  | attributeError : String → Err
  | duplicateInstance : Err
  | duplicateName : String → Err
  | openFailed : Err
  deriving DecidableEq, Repr

/-- The spec's `DuplicateError` class covers both `ValueError`s raised by
`add_format` (instance already registered, name already registered). -/
def Err.isDuplicateError : Err → Bool
  | .duplicateInstance => true
  | .duplicateName _ => true
  | _ => false

/-- A dataset format (`class Format`): identity (`fid` models Python object
identity, used by the `format in self._formats` membership test), a `name`,
a `description`, and the two capability predicates `can_read` / `can_write`. -/
structure Format where
  fid : Nat
  name : String
  description : String
  can_read : Request → Bool
  can_write : Request → Bool

/-- State of a `Format.BaseReaderWriter` session: the owning format
(`self._format`), the request it was opened against (`self._request`), the
`self._closed` flag, and `closeHookCount`, a ghost counter instrumenting
how many times the format-specific `_close` cleanup hook has been invoked
(the source's `_close` is an abstract driver hook; only its invocation
count is observable at this layer). -/
structure Session where
  format : Format
  request : Request
  closed : Bool
  closeHookCount : Nat

/-- `BaseReaderWriter.__init__` (format.py lines 73-81): stores the format
and request, sets `_closed = False`, then synchronously invokes the
format-specific `open` hook; a failure of `open` propagates out of the
constructor, so no session object is produced. -/
def sessionInit (format : Format) (request : Request)
    (openHook : Except Err Unit) : Except Err Session :=
  match openHook with
  | .error e => .error e
  | .ok _ =>
      .ok { format := format, request := request
            closed := false, closeHookCount := 0 }

/-- `Format.get_reader` (format.py lines 41-42): constructs
`self.Reader(self, request, **kwargs)`, i.e. runs the session constructor
bound to this format and request. -/
def Format.get_reader (format : Format) (request : Request)
    (openHook : Except Err Unit) : Except Err Session :=
  sessionInit format request openHook

/-- `Format.get_writer` (format.py lines 44-45): identical constructor path
through `self.Writer(self, request, **kwargs)`. -/
def Format.get_writer (format : Format) (request : Request)
    (openHook : Except Err Unit) : Except Err Session :=
  sessionInit format request openHook

/-- `BaseReaderWriter._assert_closed` (format.py lines 147-150): when the
session is closed, the source first evaluates `type(self.dataset).__name__`
— but `BaseReaderWriter` has no attribute `dataset` (the property carrying
"the dataset object" is named `format`), so Python raises
`AttributeError("dataset")` before ever building the intended
`RuntimeError(f"{cname} is already closed")`.  When the session is not
closed nothing happens. -/
def assert_closed (s : Session) : Option Err :=
  if s.closed then some (.attributeError "dataset") else none

/-- `BaseReaderWriter.__enter__` (format.py lines 83-85): runs
`self._assert_closed()` and returns `self`. -/
def enterScope (s : Session) : Except Err Session :=
  match assert_closed s with
  | some e => .error e
  | none => .ok s

/-- `BaseReaderWriter.__exit__` (format.py lines 87-88): the body is
`self._close()` — it invokes the format-specific `_close` cleanup hook
directly (despite the adjacent comment "use the wrapped close"); the
`closed` flag is neither consulted nor set.  The hook's outcome is the
`hook` argument; its invocation bumps the ghost counter. -/
def exitWith (hook : Except Err Unit) (s : Session) : Option Err × Session :=
  (match hook with | .ok _ => none | .error e => some e,
   { s with closeHookCount := s.closeHookCount + 1 })

/-- `__exit__` specialised to a `_close` hook that succeeds. -/
def exitScope (s : Session) : Session :=
  (exitWith (Except.ok ()) s).2

/-- `BaseReaderWriter.close` (format.py lines 117-128): if `self.closed`
return immediately; otherwise set `self._closed = True` and then invoke the
format-specific `_close` cleanup hook (whose outcome is the `hook`
argument). -/
def closeWith (hook : Except Err Unit) (s : Session) : Option Err × Session :=
  if s.closed then (none, s)
  else
    (match hook with | .ok _ => none | .error e => some e,
     { s with closed := true, closeHookCount := s.closeHookCount + 1 })

/-- `close()` specialised to a `_close` hook that succeeds. -/
def close (s : Session) : Session :=
  (closeWith (Except.ok ()) s).2

/-- `Format.Reader.__iter__` (format.py lines 161-163): runs
`self._assert_closed()`, then the traversal body is an unimplemented
`TODO` — the method yields no index at all (in Python it returns `None`
instead of a generator).  The result is the sequence of indices the
traversal visits. -/
def readerIter (s : Session) : Except Err (List Nat) :=
  match assert_closed s with
  | some e => .error e
  | none => .ok []

/-- The operations a caller can perform on a live session.  `enter`,
`exit`, and `closeOp` are the context-manager and close methods of
`BaseReaderWriter`; the remaining operations are the abstract driver hooks
and accessors.  Modelled from the spec: `open`, `set_index` and the four
accessors (`get_data`, `get_metadata`, `set_data`, `set_metadata`) are
abstract in the source; per the spec they acquire resources, reposition the
cursor, or move data — none of them touches the `closed` lifecycle flag. -/
inductive Op where
  | enter : Op
  | exit : Op
  | closeOp : Op
  | open_hook : Op
  | set_index : Op
  | get_data : Op
  | get_metadata : Op
  | set_data : Op
  | set_metadata : Op
  deriving DecidableEq, Repr

/-- Effect of one operation on the session state.  `enter` returns `self`
without changing state (it only asserts); `exit` is `__exit__`; `closeOp`
is `close()`; the accessor and hook operations leave the lifecycle state
unchanged (see `Op`). -/
def step (op : Op) (s : Session) : Session :=
  match op with
  | .enter => s
  | .exit => exitScope s
  | .closeOp => close s
  | _ => s

/-- Run a sequence of operations from a starting session state. -/
def run (ops : List Op) (s : Session) : Session :=
  ops.foldl (fun s op => step op s) s

/-- `FormatManager.get_format_names` (format.py lines 271-272):
`[f.name for f in self]`. -/
def get_format_names (formats : List Format) : List String :=
  formats.map Format.name

/-- `FormatManager.add_format` (format.py lines 230-243).  The registry is
the ordered list `self._formats`.  The `isinstance` guard cannot fire in a
typed embedding.  `format in self._formats` is Python identity membership
(`Format` defines no `__eq__`), modelled via `fid`; it raises
`ValueError("format is already registered")`.  Otherwise, on a name
collision: if `overwrite` is true the source's overwrite branch is a
`TODO`/`pass` and control falls through to the trailing
`self._formats.append(format)`; if `overwrite` is false it raises
`ValueError('format with name "..." is already registered')`.  With no
collision the format is appended.  The result pairs the optional raised
error with the registry state after the call. -/
def add_format (formats : List Format) (format : Format)
    (overwrite : Bool) : Option Err × List Format :=
  if formats.any (fun f => f.fid == format.fid) then
    (some .duplicateInstance, formats)
  else if (get_format_names formats).contains format.name then
    if overwrite then
      (none, formats ++ [format])
    else
      (some (.duplicateName format.name), formats)
  else
    (none, formats ++ [format])

/-- `FormatManager.search_read_format` (format.py lines 245-256): linear
scan over `self._formats` in registration order, returning the first format
whose `can_read(request)` is true, `None` when the loop completes with no
match. -/
def search_read_format (formats : List Format) (request : Request) :
    Option Format :=
  formats.find? (fun f => f.can_read request)

/-- `FormatManager.search_write_format` (format.py lines 258-269): the
symmetric scan with `can_write`. -/
def search_write_format (formats : List Format) (request : Request) :
    Option Format :=
  formats.find? (fun f => f.can_write request)

/-! Concrete fixtures used by counterexamples and witnesses. -/

/-- A concrete format named "zarr" that can read and write everything. -/
def fmtA : Format :=
  { fid := 0, name := "zarr", description := "chunked array store"
    can_read := fun _ => true, can_write := fun _ => true }

/-- A distinct format instance that collides with `fmtA` on `name`. -/
def fmtA2 : Format :=
  { fid := 1, name := "zarr", description := "replacement driver"
    can_read := fun _ => true, can_write := fun _ => true }

/-- A freshly opened session (as produced by `sessionInit` on success). -/
def sessionOpen : Session :=
  { format := fmtA, request := 0, closed := false, closeHookCount := 0 }

/-- A session that has been closed once via `close()`. -/
def sessionClosed : Session :=
  close sessionOpen


/-! Helper lemmas (shared; not claim theorems). -/

/-- `run` unfolds one step at a time. -/
theorem run_cons (op : Op) (ops : List Op) (s : Session) :
    run (op :: ops) s = run ops (step op s) := rfl

/-- No single operation un-closes a closed session. -/
theorem step_preserves_closed (op : Op) (s : Session) (h : s.closed = true) :
    (step op s).closed = true := by
  cases op <;> simp [step, exitScope, exitWith, close, closeWith, h]

/-- The first element of a linear scan is the head of the in-order filter. -/
theorem find_eq_filter_head (p : Format → Bool) (l : List Format) :
    l.find? p = (l.filter p).head? := by
  induction l with
  | nil => rfl
  | cons x xs ih =>
      by_cases h : p x = true
      · rw [List.find?_cons_of_pos _ h, List.filter_cons_of_pos h]
        rfl
      · rw [List.find?_cons_of_neg _ h, List.filter_cons_of_neg h]
        exact ih

/-- A linear scan comes back empty exactly when no element satisfies the
predicate. -/
theorem find_isNone_iff_all_fail (p : Format → Bool) (l : List Format) :
    (l.find? p).isNone = l.all (fun f => ! p f) := by
  induction l with
  | nil => rfl
  | cons x xs ih => by_cases h : p x <;> simp [List.find?, h, ih]

/-! Claim theorems. -/

/-- Claim C1 (code_bug evaluation): on a freshly opened session, scoped
exit leaves the `closed` flag false — `__exit__` invokes the `_close`
cleanup hook directly instead of calling `close()` (despite its own
comment "use the wrapped close") — so a subsequent explicit `close()` call
invokes the `_close` hook a second time, contradicting "`_close` is only
ever invoked once per session". -/
theorem exit_then_close_invokes_cleanup_twice :
    (exitScope sessionOpen).closed = false ∧
    (exitScope sessionOpen).closeHookCount = 1 ∧
    (close (exitScope sessionOpen)).closeHookCount = 2 :=
  ⟨rfl, rfl, rfl⟩

/-- Claim C2 (code_bug evaluation): scoped-acquisition entry on a closed
session does fail, but with Python's `AttributeError` for the missing
`dataset` attribute (`_assert_closed` evaluates `type(self.dataset)` and
`BaseReaderWriter` has no such attribute — the property is named `format`),
not with the intended "is already closed" error the spec calls
`UseAfterCloseError`; entry on a non-closed session returns the session
itself. -/
theorem enter_closed_raises_attribute_error :
    enterScope sessionClosed = Except.error (Err.attributeError "dataset") ∧
    enterScope sessionClosed ≠ Except.error Err.useAfterClose ∧
    enterScope sessionOpen = Except.ok sessionOpen := by
  refine ⟨rfl, ?_, rfl⟩
  intro h
  simp [enterScope, assert_closed, sessionClosed, close, closeWith,
        sessionOpen] at h

/-- Claim C3 (confirmed): `close()` is idempotent — whatever the outcome of
the format-specific `_close` hook on the first call, a second `close()`
call is a no-op (it raises nothing, invokes no hook, and returns the exact
state left by the first call), detected via the `closed` flag. -/
theorem close_idempotent (h1 h2 : Except Err Unit) (s : Session) :
    closeWith h2 (closeWith h1 s).2 = (none, (closeWith h1 s).2) := by
  cases hc : s.closed <;> cases h1 <;> simp [closeWith, hc]

/-- Claim C4 (confirmed): `search_read_format` returns the head of the
registration-ordered sublist of formats whose `can_read` holds — i.e. the
earliest-registered capable format — and comes back `none` (not an error)
exactly when no registered format is capable; `search_write_format` is
symmetric with `can_write`. -/
theorem search_returns_first_capable_format (formats : List Format)
    (request : Request) :
    search_read_format formats request
      = (formats.filter (fun f => f.can_read request)).head?
  ∧ (search_read_format formats request).isNone
      = formats.all (fun f => ! f.can_read request)
  ∧ search_write_format formats request
      = (formats.filter (fun f => f.can_write request)).head?
  ∧ (search_write_format formats request).isNone
      = formats.all (fun f => ! f.can_write request) :=
  ⟨find_eq_filter_head _ _, find_isNone_iff_all_fail _ _,
   find_eq_filter_head _ _, find_isNone_iff_all_fail _ _⟩

/-- Claim C5 (confirmed): when the incoming format's name is already
registered and `overwrite` is false, `add_format` raises one of the two
duplicate-registration `ValueError`s (the spec's `DuplicateError`) and
leaves the registry exactly as it was — same formats, same order. -/
theorem add_format_collision_rejected (formats : List Format) (fmt : Format)
    (h : (get_format_names formats).contains fmt.name = true) :
    (add_format formats fmt false).2 = formats ∧
    ∃ e, (add_format formats fmt false).1 = some e ∧
      e.isDuplicateError = true := by
  have hmem : fmt.name ∈ get_format_names formats := by simpa using h
  by_cases hid : (formats.any fun f => f.fid == fmt.fid) = true
  · exact ⟨by simp [add_format, hid],
      ⟨Err.duplicateInstance, by simp [add_format, hid], rfl⟩⟩
  · exact ⟨by simp [add_format, hid, hmem],
      ⟨Err.duplicateName fmt.name, by simp [add_format, hid, hmem], rfl⟩⟩

/-- Witness for C5: registering a second "zarr"-named format without
`overwrite` fails with a duplicate error and leaves the one-element
registry unchanged. -/
theorem add_format_collision_rejected_witness :
    (get_format_names [fmtA]).contains fmtA2.name = true ∧
    ((add_format [fmtA] fmtA2 false).2 = [fmtA] ∧
     ∃ e, (add_format [fmtA] fmtA2 false).1 = some e ∧
       e.isDuplicateError = true) :=
  ⟨rfl, add_format_collision_rejected [fmtA] fmtA2 rfl⟩

/-- Claim C6 (code_bug evaluation): with `overwrite = true` and a name
collision, the source's overwrite branch is an unimplemented `TODO`/`pass`
that falls through to `self._formats.append(format)`: the registry grows
from one entry to two and the colliding name now occurs twice, instead of
the existing entry being replaced in place. -/
theorem add_format_overwrite_appends_duplicate :
    (add_format [fmtA] fmtA2 true).1 = none ∧
    (add_format [fmtA] fmtA2 true).2.length = 2 ∧
    get_format_names (add_format [fmtA] fmtA2 true).2 = ["zarr", "zarr"] :=
  ⟨rfl, rfl, rfl⟩

/-- Claim C7 (confirmed): `get_reader` (and symmetrically `get_writer`)
produces a session whose `format` and `request` attributes are exactly the
given format and request with the `closed` flag false and the cleanup hook
not yet invoked, and the format-specific `open` hook runs synchronously
inside construction: when `open` fails, the failure propagates from the
`get_reader`/`get_writer` call itself and no session is produced. -/
theorem get_reader_binds_format_and_propagates_open_failure
    (fmt : Format) (request : Request) (e : Err) :
    fmt.get_reader request (Except.ok ())
      = Except.ok { format := fmt, request := request
                    closed := false, closeHookCount := 0 }
  ∧ fmt.get_reader request (Except.error e) = Except.error e
  ∧ fmt.get_writer request (Except.ok ())
      = Except.ok { format := fmt, request := request
                    closed := false, closeHookCount := 0 }
  ∧ fmt.get_writer request (Except.error e) = Except.error e :=
  ⟨rfl, rfl, rfl, rfl⟩

/-- Claim C8 (code_bug evaluation): the sequential traversal body of
`Reader.__iter__` is an unimplemented `TODO`: on an open session the
traversal visits zero indices (rather than one per addressable unit), and
on a closed session the guard fails with the `AttributeError` of
`_assert_closed` rather than the intended use-after-close error. -/
theorem reader_traversal_yields_no_indices :
    readerIter sessionOpen = Except.ok [] ∧
    (readerIter sessionOpen).map List.length = Except.ok 0 ∧
    readerIter sessionClosed = Except.error (Err.attributeError "dataset") :=
  ⟨rfl, rfl, rfl⟩

/-- Claim C9 (confirmed): the `closed` flag is monotone — once a session is
closed, no sequence of protocol operations (scoped entry and exit, close,
the abstract `open`/`set_index` hooks and the four accessors) ever makes
`closed` false again. -/
theorem closed_flag_monotone (ops : List Op) (s : Session)
    (h : s.closed = true) : (run ops s).closed = true := by
  induction ops generalizing s with
  | nil => exact h
  | cons op ops ih =>
      rw [run_cons]
      exact ih _ (step_preserves_closed op s h)

/-- Witness for C9: a closed session stays closed across a concrete
sequence of enter, exit, accessor and close operations. -/
theorem closed_flag_monotone_witness :
    sessionClosed.closed = true ∧
    (run [Op.enter, Op.exit, Op.get_data, Op.closeOp, Op.set_metadata]
       sessionClosed).closed = true :=
  ⟨rfl, closed_flag_monotone _ sessionClosed rfl⟩

/-- Claim C10 (confirmed): `close()` sets the `closed` flag before invoking
the format-specific `_close` hook, so even when `_close` fails the error
propagates with the session already marked closed, and any subsequent
`close()` call is a no-op returning the same state with no error. -/
theorem close_marks_closed_before_hook (e : Err) (s : Session)
    (h : s.closed = false) :
    (closeWith (Except.error e) s).1 = some e ∧
    (closeWith (Except.error e) s).2.closed = true ∧
    ∀ h2 : Except Err Unit,
      closeWith h2 (closeWith (Except.error e) s).2
        = (none, (closeWith (Except.error e) s).2) := by
  refine ⟨?_, ?_, ?_⟩ <;> simp [closeWith, h]

/-- Witness for C10: closing a fresh session with a failing `_close` hook
surfaces the hook's error yet reports the session closed, and a second
close is a no-op. -/
theorem close_marks_closed_before_hook_witness :
    sessionOpen.closed = false ∧
    (closeWith (Except.error Err.openFailed) sessionOpen).1
      = some Err.openFailed ∧
    (closeWith (Except.error Err.openFailed) sessionOpen).2.closed = true ∧
    closeWith (Except.ok ()) (closeWith (Except.error Err.openFailed) sessionOpen).2
      = (none, (closeWith (Except.error Err.openFailed) sessionOpen).2) :=
  ⟨rfl,
   (close_marks_closed_before_hook Err.openFailed sessionOpen rfl).1,
   (close_marks_closed_before_hook Err.openFailed sessionOpen rfl).2.1,
   (close_marks_closed_before_hook Err.openFailed sessionOpen rfl).2.2
     (Except.ok ())⟩

end UtoolboxIO
